import Mathlib

/-!
Shallow embedding of `src/index.ts` (Object Gateway Service): an Express
application exposing four routes over an S3 backend.

Backend calls (`s3.send`) are modelled by passing the outcome of the single
call a handler makes as an explicit argument; the command that is sent is
recorded in the handler's result so that "no backend call was issued" and
"exactly this command was sent" are statable.  The local staging directory
written by multer and read with `readFileSync` / removed with `unlinkSync`
is an explicit association list from path to byte content.
-/

namespace S3Playground

/-- Byte content of a file (`Buffer` in the source). -/
abbrev Bytes := List Nat

/-- The local staging filesystem (`uploads/` directory written by multer). -/
structure FS where
  files : List (String × Bytes)
deriving Repr, DecidableEq

/-- `readFileSync path`: `some content` when the file exists, `none` when the
read throws (file absent). -/
def FS.read (fs : FS) (p : String) : Option Bytes :=
  (fs.files.find? (fun e => e.1 = p)).map (·.2)

/-- `unlinkSync path`: remove every entry at `p`. -/
def FS.unlink (fs : FS) (p : String) : FS :=
  ⟨fs.files.filter (fun e => ¬ e.1 = p)⟩

/-- Whether a path currently exists on the staging disk. -/
def FS.existsFile (fs : FS) (p : String) : Bool :=
  (fs.files.find? (fun e => e.1 = p)).isSome

/-- An object as returned by `ListObjectsV2`; every field is optional on the
SDK surface (`file.Key`, `file.LastModified`, `file.Size`). Timestamps are
modelled as `Nat` (milliseconds). -/
structure S3Object where
  Key : Option String
  LastModified : Option Nat
  Size : Option Nat
deriving Repr, DecidableEq

/-- The data of a successful `ListObjectsV2` response. -/
structure ListObjectsResult where
  Contents : Option (List S3Object)
  IsTruncated : Bool
  NextContinuationToken : Option String
deriving Repr, DecidableEq

/-- The commands the service can send to the backend (`s3.send(command)`). -/
inductive BackendCall where
  | putObject (bucket key : String) (body : Bytes)
  | listObjects (bucket : String) (continuationToken : Option String)
  | deleteObject (bucket key : String)
deriving Repr, DecidableEq

/-- Outcome of the single `s3.send` of the upload handler. -/
inductive PutOutcome where
  | ok
  | err
deriving Repr, DecidableEq

/-- Outcome of the single `s3.send` of the list handler. -/
inductive ListOutcome where
  | ok (data : ListObjectsResult)
  | err
deriving Repr, DecidableEq

/-- Outcome of the single `s3.send` of the delete handler. -/
inductive DeleteOutcome where
  | ok
  | err
deriving Repr, DecidableEq

/-- One entry of the array the list handler responds with:
`{ key: file.Key, lastModified: file.LastModified, size: file.Size }`.
Fields absent on the backend object surface as `none` (undefined). -/
structure FileEntry where
  key : Option String
  lastModified : Option Nat
  size : Option Nat
deriving Repr, DecidableEq

/-- JSON bodies the service sends (each `res.json(...)` shape in the source). -/
inductive Body where
  | errorMsg (error : String)
  | message (msg : String)
  | health (status : String) (timestamp : String)
  | fileList (files : List FileEntry)
deriving Repr, DecidableEq

/-- An HTTP response: status code (200 unless `res.status(...)` is called)
and JSON body. -/
structure Response where
  status : Nat
  body : Body
deriving Repr, DecidableEq

/-- The file attached to an upload request by `upload.single("file")`:
`req.file.path` is the staging path, `req.file.originalname` the client
supplied filename. -/
structure UploadedFile where
  path : String
  originalname : String
deriving Repr, DecidableEq

/-- An upload request: `req.file` is `none` when the multipart body had no
file part. -/
structure UploadRequest where
  file : Option UploadedFile
deriving Repr, DecidableEq

/-- Result of running the upload handler.  `response = none` means the
handler threw an uncaught error (no `res.*` was ever called); `calls` lists
the backend commands sent, `fs` the staging disk afterwards, and `logged`
whether `console.error` ran. -/
structure UploadResult where
  response : Option Response
  calls : List BackendCall
  fs : FS
  logged : Bool
deriving Repr, DecidableEq

/-- `POST /upload` handler (src/index.ts lines 57-84).

```
if (!req.file) { res.status(400).json({ error: "No file uploaded" }); return; }
const filePath = req.file.path;
const fileContent = readFileSync(filePath);            -- outside try/catch
const command = new PutObjectCommand({ Bucket, Key: originalname, Body });
try { await s3.send(command); unlinkSync(filePath);
      res.json({ message: "File uploaded successfully" }); }
catch (err) { console.error(...); res.status(500).json({ error: "Failed to upload file" }); }
```
-/
def uploadHandler (bucketName : String) (req : UploadRequest) (fs : FS)
    (put : PutOutcome) : UploadResult :=
  match req.file with
  | none =>
      { response := some ⟨400, .errorMsg "No file uploaded"⟩
        calls := [], fs := fs, logged := false }
  | some file =>
      match fs.read file.path with
      | none =>
          -- readFileSync throws before the try block: uncaught, nothing sent
          { response := none, calls := [], fs := fs, logged := false }
      | some fileContent =>
          let command := BackendCall.putObject bucketName file.originalname fileContent
          match put with
          | .ok =>
              { response := some ⟨200, .message "File uploaded successfully"⟩
                calls := [command], fs := fs.unlink file.path, logged := false }
          | .err =>
              { response := some ⟨500, .errorMsg "Failed to upload file"⟩
                calls := [command], fs := fs, logged := true }

/-- Result of the list and delete handlers (no staging disk involved). -/
structure HandlerResult where
  response : Response
  calls : List BackendCall
  logged : Bool
deriving Repr, DecidableEq

/-- Projection `(file) => ({ key: file.Key, lastModified: file.LastModified,
size: file.Size })` from the list handler. -/
def projectObject (file : S3Object) : FileEntry :=
  ⟨file.Key, file.LastModified, file.Size⟩

/-- `GET /files` handler (src/index.ts lines 98-117).

```
const command = new ListObjectsV2Command({ Bucket: bucketName });
try { const data = await s3.send(command);
      const files = data.Contents?.map(...) || [];
      res.json(files); }
catch (err) { console.error(...); res.status(500).json({ error: "Failed to retrieve file" }); }
```

The command carries no `ContinuationToken` and `s3.send` is called once;
`data.Contents?.map(...)` is `undefined` exactly when `Contents` is absent
(a JS empty array is truthy), so `|| []` fires only for absent `Contents`. -/
def listHandler (bucketName : String) (outcome : ListOutcome) : HandlerResult :=
  let command := BackendCall.listObjects bucketName none
  match outcome with
  | .ok data =>
      let files := (data.Contents.map (·.map projectObject)).getD []
      { response := ⟨200, .fileList files⟩, calls := [command], logged := false }
  | .err =>
      { response := ⟨500, .errorMsg "Failed to retrieve file"⟩
        calls := [command], logged := true }

/-- `DELETE /files/:key` handler (src/index.ts lines 132-152).

```
const { key } = req.params;
if (!key) { res.status(400).json({ error: "File key is required" }); return; }
const command = new DeleteObjectCommand({ Bucket: bucketName, Key: key });
try { await s3.send(command); res.json({ message: "File deleted successfully" }); }
catch (err) { console.error(...); res.status(500).json({ error: "Failed to delete file" }); }
```

In JS `!key` is true for the empty string. -/
def deleteHandler (bucketName key : String) (outcome : DeleteOutcome) :
    HandlerResult :=
  if key = "" then
    { response := ⟨400, .errorMsg "File key is required"⟩
      calls := [], logged := false }
  else
    let command := BackendCall.deleteObject bucketName key
    match outcome with
    | .ok =>
        { response := ⟨200, .message "File deleted successfully"⟩
          calls := [command], logged := false }
    | .err =>
        { response := ⟨500, .errorMsg "Failed to delete file"⟩
          calls := [command], logged := true }

/-- `GET /health` handler (src/index.ts lines 40-42):
`res.json({ status: "healthy", timestamp: new Date().toISOString() })`.
The current clock reading is passed in as `now`. No `s3.send` occurs. -/
def healthHandler (now : String) : HandlerResult :=
  { response := ⟨200, .health "healthy" now⟩, calls := [], logged := false }

/-- HTTP methods used by the application. -/
inductive Method where
  | GET
  | POST
  | DELETE
deriving Repr, DecidableEq

/-- Does the path match the Express pattern `/files/:key` (default routing:
one non-empty segment after `/files/`, optionally a trailing slash)? -/
def matchesFilesKey (path : String) : Bool :=
  "/files/".isPrefixOf path &&
    (let rest := path.drop 7
     let seg := if rest.endsWith "/" then rest.dropRight 1 else rest
     seg ≠ "" && ¬ seg.contains '/')

/-- The application's routing table (the four `app.get/post/delete`
registrations in src/index.ts): does some registered route handle this
method and path? -/
def routeHandles (m : Method) (path : String) : Bool :=
  match m with
  | .GET => path = "/health" || path = "/files"
  | .POST => path = "/upload"
  | .DELETE => matchesFilesKey path

/-! Helper lemmas on the staging filesystem. -/

/-- After `unlinkSync p` the path `p` can no longer be read. -/
theorem FS.read_unlink_self (fs : FS) (p : String) : (fs.unlink p).read p = none := by
  simp [FS.unlink, FS.read, List.find?_eq_none, List.mem_filter]

/-- After `unlinkSync p` the path `p` no longer exists on disk. -/
theorem FS.existsFile_unlink_self (fs : FS) (p : String) :
    (fs.unlink p).existsFile p = false := by
  simp [FS.unlink, FS.existsFile, List.find?_eq_none, List.mem_filter]

/-- A readable path exists on disk. -/
theorem FS.existsFile_of_read (fs : FS) (p : String) (c : Bytes)
    (h : fs.read p = some c) : fs.existsFile p = true := by
  simp only [FS.read, Option.map_eq_some'] at h
  obtain ⟨e, he, -⟩ := h
  simp [FS.existsFile, he]

/-! Claim theorems. -/

/-- Claim C1: a POST /upload request whose multipart body contains no file
part is answered with HTTP 400 and body `{error: "No file uploaded"}`, no
put-object call is issued, and the staging disk is untouched, whatever the
backend would have answered. -/
theorem upload_no_file (bucketName : String) (fs : FS) (put : PutOutcome) :
    uploadHandler bucketName ⟨none⟩ fs put =
      { response := some ⟨400, .errorMsg "No file uploaded"⟩
        calls := [], fs := fs, logged := false } := rfl

/-- Claim C2: on an upload with a file part whose staged content is readable,
when the backend put succeeds the handler sends exactly one put-object
command whose key is the file's original filename and whose body is the full
staged byte content, removes the staging file, responds
`{message: "File uploaded successfully"}`, and the staging path no longer
exists afterwards. -/
theorem upload_success (b path name : String) (fs : FS) (content : Bytes)
    (h : fs.read path = some content) :
    uploadHandler b ⟨some ⟨path, name⟩⟩ fs .ok =
      { response := some ⟨200, .message "File uploaded successfully"⟩
        calls := [.putObject b name content]
        fs := fs.unlink path, logged := false } ∧
    (fs.unlink path).existsFile path = false := by
  refine ⟨?_, FS.existsFile_unlink_self fs path⟩
  simp [uploadHandler, h]

/-- Witness for C2 at a concrete request and staging disk. -/
theorem upload_success_witness :
    uploadHandler "bucket" ⟨some ⟨"uploads/x1", "a.txt"⟩⟩
        ⟨[("uploads/x1", [104, 105])]⟩ .ok =
      { response := some ⟨200, .message "File uploaded successfully"⟩
        calls := [.putObject "bucket" "a.txt" [104, 105]]
        fs := FS.unlink ⟨[("uploads/x1", [104, 105])]⟩ "uploads/x1", logged := false } ∧
    (FS.unlink ⟨[("uploads/x1", [104, 105])]⟩ "uploads/x1").existsFile "uploads/x1" = false :=
  upload_success "bucket" "uploads/x1" "a.txt" ⟨[("uploads/x1", [104, 105])]⟩
    [104, 105] (by decide)

/-- Claim C3: on an upload with a readable staged file, when the backend put
fails the handler responds with HTTP 500 and `{error: "Failed to upload
file"}`, the failure is logged, the staging disk is left unchanged, and the
staging file still exists afterwards. -/
theorem upload_backend_failure (b path name : String) (fs : FS) (content : Bytes)
    (h : fs.read path = some content) :
    uploadHandler b ⟨some ⟨path, name⟩⟩ fs .err =
      { response := some ⟨500, .errorMsg "Failed to upload file"⟩
        calls := [.putObject b name content]
        fs := fs, logged := true } ∧
    fs.existsFile path = true := by
  refine ⟨?_, FS.existsFile_of_read fs path content h⟩
  simp [uploadHandler, h]

/-- Witness for C3 at a concrete request and staging disk. -/
theorem upload_backend_failure_witness :
    uploadHandler "bucket" ⟨some ⟨"uploads/x1", "a.txt"⟩⟩
        ⟨[("uploads/x1", [104, 105])]⟩ .err =
      { response := some ⟨500, .errorMsg "Failed to upload file"⟩
        calls := [.putObject "bucket" "a.txt" [104, 105]]
        fs := ⟨[("uploads/x1", [104, 105])]⟩, logged := true } ∧
    (FS.mk [("uploads/x1", [104, 105])]).existsFile "uploads/x1" = true :=
  upload_backend_failure "bucket" "uploads/x1" "a.txt"
    ⟨[("uploads/x1", [104, 105])]⟩ [104, 105] (by decide)

/-- Claim C10: `readFileSync` runs before and outside the try/catch, so on
an upload whose staging-file read fails the handler ends with an uncaught
error: no response at all is sent (in particular not the structured 500
payload), no backend call is issued, the staging disk is untouched, and
nothing is logged by the handler — for every backend outcome. -/
theorem upload_read_failure (b path name : String) (fs : FS) (put : PutOutcome)
    (h : fs.read path = none) :
    uploadHandler b ⟨some ⟨path, name⟩⟩ fs put =
      { response := none, calls := [], fs := fs, logged := false } := by
  simp [uploadHandler, h]

/-- Witness for C10: an upload pointing at an empty staging disk. -/
theorem upload_read_failure_witness :
    uploadHandler "bucket" ⟨some ⟨"uploads/x1", "a.txt"⟩⟩ ⟨[]⟩ .ok =
      { response := none, calls := [], fs := ⟨[]⟩, logged := false } :=
  upload_read_failure "bucket" "uploads/x1" "a.txt" ⟨[]⟩ .ok (by decide)

/-- Claim C4: a DELETE /files/:key request whose key is the empty string is
answered with HTTP 400 and `{error: "File key is required"}` and no
delete-object call is issued, whatever the backend would have answered. -/
theorem delete_empty_key (bucketName : String) (outcome : DeleteOutcome) :
    deleteHandler bucketName "" outcome =
      { response := ⟨400, .errorMsg "File key is required"⟩
        calls := [], logged := false } := rfl

/-- Claim C5: on a successful backend list call the handler responds 200
with each backend object projected through `projectObject`, defaulting to
the empty array when the response has no `Contents`; the projection of an
object is exactly its `{Key, LastModified, Size}` triple, optional fields
surviving as they are. -/
theorem list_success (bucketName : String) (data : ListObjectsResult) :
    listHandler bucketName (.ok data) =
      { response := ⟨200, .fileList ((data.Contents.getD []).map projectObject)⟩
        calls := [.listObjects bucketName none], logged := false } ∧
    ∀ file : S3Object, projectObject file = ⟨file.Key, file.LastModified, file.Size⟩ := by
  constructor
  · cases h : data.Contents <;> simp [listHandler, h]
  · intro file; rfl

/-- Claim C6: the list handler sends exactly one list-objects command, with
no continuation token, in every case; and on a success whose response is
marked truncated with a continuation token, the body still holds only the
first page's projection — later objects are silently omitted. -/
theorem list_single_call_no_pagination (bucketName : String)
    (firstPage : List S3Object) (truncated : Bool) (token : Option String) :
    (∀ outcome : ListOutcome,
      (listHandler bucketName outcome).calls = [.listObjects bucketName none]) ∧
    (listHandler bucketName (.ok ⟨some firstPage, truncated, token⟩)).response.body =
      .fileList (firstPage.map projectObject) := by
  constructor
  · intro outcome; cases outcome <;> rfl
  · rfl

/-- Claim C7: when the backend list call fails the handler responds with
HTTP 500 and body exactly `{error: "Failed to retrieve file"}` — an error
object, not a (partial) listing — and logs the failure, still having issued
the single list-objects command. -/
theorem list_failure (bucketName : String) :
    listHandler bucketName .err =
      { response := ⟨500, .errorMsg "Failed to retrieve file"⟩
        calls := [.listObjects bucketName none], logged := true } := rfl

/-- Claim C8: a DELETE /files/:key request with a non-empty key sends
exactly one delete-object command for that key; on success the response is
`{message: "File deleted successfully"}`, on failure it is HTTP 500 with
`{error: "Failed to delete file"}` and the failure is logged. -/
theorem delete_nonempty_key (bucketName key : String) (h : ¬ key = "") :
    deleteHandler bucketName key .ok =
      { response := ⟨200, .message "File deleted successfully"⟩
        calls := [.deleteObject bucketName key], logged := false } ∧
    deleteHandler bucketName key .err =
      { response := ⟨500, .errorMsg "Failed to delete file"⟩
        calls := [.deleteObject bucketName key], logged := true } := by
  constructor <;> simp [deleteHandler, h]

/-- Witness for C8 at the concrete key `a.txt`. -/
theorem delete_nonempty_key_witness :
    deleteHandler "bucket" "a.txt" .ok =
      { response := ⟨200, .message "File deleted successfully"⟩
        calls := [.deleteObject "bucket" "a.txt"], logged := false } ∧
    deleteHandler "bucket" "a.txt" .err =
      { response := ⟨500, .errorMsg "Failed to delete file"⟩
        calls := [.deleteObject "bucket" "a.txt"], logged := true } :=
  delete_nonempty_key "bucket" "a.txt" (by decide)

/-- Counterexample to claim C9 as stated: no registered route serves
GET /, so the health endpoint is not also served at the root path. -/
theorem health_not_served_at_root : routeHandles .GET "/" = false := by decide

/-- Claim C9 (amended): the health endpoint is served at GET /health only —
GET / matches no registered route — and for every request it returns HTTP
200 with a liveness payload carrying the status field `healthy` and the
current timestamp, issuing no call to the storage backend. -/
theorem health_endpoint (now : String) :
    routeHandles .GET "/health" = true ∧
    healthHandler now =
      { response := ⟨200, .health "healthy" now⟩, calls := [], logged := false } ∧
    routeHandles .GET "/" = false :=
  ⟨by decide, rfl, by decide⟩

end S3Playground
